import Mathlib

/-!
# Verification of the PayPal webhook processor (`index.py`)

A shallow embedding of the event normalization and dispatch pipeline of
`src/index.py`: the payload validators, the three event handlers
(`process_subscription_created`, `process_subscription_payment`,
`process_order_approved`), the custom-tag decoder they share, the
`float`-based net-amount derivation, and `lambda_handler`'s routing and
exception-to-status mapping.

Python values flowing through the handlers are modelled by `JVal` (the
JSON-like values a decoded webhook body can hold, plus `None`).  Side
effects on the two sinks (the DynamoDB `put_item` in `save_record` and the
Google-Sheets append in `append_to_google_sheet`) are modelled as an
explicit effect trace; the sink clients themselves are external
collaborators.  Python exceptions are modelled by `PyErr`; `lambda_handler`
maps `ValueError` to HTTP 400 and every other exception to HTTP 500,
exactly as the `except` clauses on lines 251-262 do.
-/

namespace PaypalProcessor

mutual
/-- A decoded JSON value / Python object, as produced by `json.loads` and
passed through the handlers.  `jnull` is Python's `None`.  Objects and
arrays use the mutual types `JFields` / `JList` so that all recursion over
values is structural. -/
inductive JVal where
  | jnull : JVal
  | jbool (b : Bool) : JVal
  | jnum (n : Int) : JVal
  | jstr (s : String) : JVal
  | jarr (xs : JList) : JVal
  | jobj (fs : JFields) : JVal
  deriving DecidableEq

inductive JList where
  | nil : JList
  | cons (v : JVal) (tl : JList) : JList
  deriving DecidableEq

inductive JFields where
  | nil : JFields
  | cons (k : String) (v : JVal) (tl : JFields) : JFields
  deriving DecidableEq
end

/-- Key lookup in an object's field list (Python dict lookup; keys of a
decoded JSON object are unique). -/
def jfind : JFields → String → Option JVal
  | .nil, _ => none
  | .cons k v tl, key => if k = key then some v else jfind tl key

/-- Python truthiness of a value (`if not purchase_units:` on line 155). -/
def pyTruthy : JVal → Bool
  | .jnull => false
  | .jbool b => b
  | .jnum n => n != 0
  | .jstr s => s ≠ ""
  | .jarr .nil => false
  | .jarr (.cons _ _) => true
  | .jobj .nil => false
  | .jobj (.cons _ _ _) => true

/-- A single-quote character, used by `pyRepr` below. -/
def sq : String := String.mk [Char.ofNat 39]

mutual
/-- Python `repr()` of a value, as used for elements of containers inside
f-strings. -/
def pyRepr : JVal → String
  | .jnull => "None"
  | .jbool true => "True"
  | .jbool false => "False"
  | .jnum n => toString n
  | .jstr s => sq ++ s ++ sq
  | .jarr xs => "[" ++ pyReprList xs ++ "]"
  | .jobj fs => "\x7b" ++ pyReprFields fs ++ "\x7d"

def pyReprList : JList → String
  | .nil => ""
  | .cons v .nil => pyRepr v
  | .cons v tl => pyRepr v ++ ", " ++ pyReprList tl

def pyReprFields : JFields → String
  | .nil => ""
  | .cons k v .nil => sq ++ k ++ sq ++ ": " ++ pyRepr v
  | .cons k v tl => sq ++ k ++ sq ++ ": " ++ pyRepr v ++ ", " ++ pyReprFields tl
end

/-- Python `str()` of a value, as interpolated by the handler's f-strings
(`f'Event type {event_type} not processed.'`). -/
def pyStr : JVal → String
  | .jstr s => s
  | v => pyRepr v

/-- Python's `str.split(sep)` on character lists: split on every occurrence
of `sep`, keeping empty segments (`''.split('|') == ['']`,
`'a||b'.split('|') == ['a','','b']`). -/
def pySplitChars (sep : Char) : List Char → List (List Char)
  | [] => [[]]
  | c :: cs =>
    match pySplitChars sep cs with
    | [] => [[]]
    | s :: rest => if c = sep then [] :: s :: rest else (c :: s) :: rest

/-- Python dict assignment `parts[key] = value` on an insertion-ordered
association list: overwrite in place if the key exists, append otherwise. -/
def dictSet (m : List (String × String)) (k v : String) : List (String × String) :=
  if m.any (fun p => p.1 = k) then
    m.map (fun p => if p.1 = k then (k, v) else p)
  else
    m ++ [(k, v)]

/-- Python `parts.get(key, default)` on the association list. -/
def dictGet (m : List (String × String)) (k dflt : String) : String :=
  match m.find? (fun p => p.1 = k) with
  | some p => p.2
  | none => dflt

/-- One iteration of the segment loop: `segment.split(':')` splits on
EVERY `:`; a segment yielding exactly two parts contributes
`key -> value`, any other segment is skipped (with a printed diagnostic,
which the model does not track). -/
def tagStep (parts : List (String × String)) (seg : List Char) : List (String × String) :=
  match pySplitChars ':' seg with
  | [k, v] => dictSet parts (String.mk k) (String.mk v)
  | _ => parts

/-- The custom-tag decoding loop shared verbatim by all three handlers
(lines 91-98, 125-132, 177-184): split the tag on `|` and fold the
segment loop over the pieces. -/
def tagParts (tag : String) : List (String × String) :=
  (pySplitChars '|' tag.data).foldl tagStep []

example : tagParts "purpose:Donation|email:a@b.com" =
    [("purpose", "Donation"), ("email", "a@b.com")] := by decide

example : tagParts "time:12:00" = [] := by decide

example : tagParts "" = [] := by decide

/-! ## Python `float`: an exact model of IEEE-754 binary64 arithmetic

Line 121 computes `net_amount = float(amount_value) - float(transaction_fee)`
and line 145 stores `str(net_amount)`.  Python floats are IEEE-754 binary64
values; `str` produces the shortest decimal string that parses back to the
same value (fixed-point notation for the magnitudes occurring here).  The
model below represents a finite double as a sign and an exact
significand/exponent pair and performs all rounding with exact integer
arithmetic (round to nearest, ties to even).  Overflow, subnormals, NaN and
scientific-notation formatting do not arise for the monetary magnitudes the
pipeline handles and are outside the model. -/

/-- A finite IEEE-754 binary64 value: `(-1)^neg * m * 2^e`, with `m = 0`
(zero) or `2^52 ≤ m < 2^53` (a normal double). -/
structure F64 where
  neg : Bool
  m : Nat
  e : Int
  deriving DecidableEq

/-- Scale a positive fraction `num/den` by powers of two until the ratio
lies in `[2^52, 2^53)`, tracking the binary exponent.  Fuel-structured so
the kernel can evaluate it. -/
def normLoop : Nat → Nat → Nat → Int → Nat × Nat × Int
  | 0, num, den, t => (num, den, t)
  | fuel + 1, num, den, t =>
    if num < den * 2 ^ 52 then normLoop fuel (num * 2) den (t - 1)
    else if den * 2 ^ 53 ≤ num then normLoop fuel num (den * 2) (t + 1)
    else (num, den, t)

/-- Round the positive rational `num/den` (both nonzero) to the nearest
binary64 significand/exponent pair, ties to even. -/
def roundPosRat (num den : Nat) : Nat × Int :=
  let (n, d, t) := normLoop 4400 num den 0
  let q := n / d
  let r := n % d
  let q2 :=
    if d < 2 * r then q + 1
    else if 2 * r < d then q
    else if q % 2 = 0 then q else q + 1
  if q2 = 2 ^ 53 then (2 ^ 52, t + 1) else (q2, t)

/-- The binary64 value nearest to `(-1)^neg * num/den`. -/
def ratToF64 (neg : Bool) (num den : Nat) : F64 :=
  if num = 0 then ⟨false, 0, 0⟩
  else
    let (m, e) := roundPosRat num den
    ⟨neg, m, e⟩

/-- Digit characters to a natural number. -/
def digitsToNat (cs : List Char) : Nat :=
  cs.foldl (fun a c => a * 10 + (c.toNat - 48)) 0

/-- An unsigned decimal literal: mantissa and number of fraction digits
(`"12.34"` gives `(1234, 2)`).  Accepts the plain forms Python's `float()`
accepts for the payload's amount strings: digits with at most one dot and
at least one digit. -/
def parseDecParts (cs : List Char) : Option (Nat × Nat) :=
  match pySplitChars '.' cs with
  | [ip] =>
    if ip ≠ [] ∧ ip.all Char.isDigit then some (digitsToNat ip, 0) else none
  | [ip, fp] =>
    if ip ++ fp ≠ [] ∧ (ip ++ fp).all Char.isDigit then
      some (digitsToNat (ip ++ fp), fp.length)
    else none
  | _ => none

/-- Python `float(s)` on a plain decimal string: `some` of the correctly
rounded binary64 value, or `none` when the string does not parse (in which
case `float` raises `ValueError`). -/
def pyFloatOfString (s : String) : Option F64 :=
  match s.data with
  | '-' :: rest => (parseDecParts rest).map (fun p => ratToF64 true p.1 (10 ^ p.2))
  | '+' :: rest => (parseDecParts rest).map (fun p => ratToF64 false p.1 (10 ^ p.2))
  | cs => (parseDecParts cs).map (fun p => ratToF64 false p.1 (10 ^ p.2))

/-- IEEE-754 binary64 subtraction `a - b`: the exact difference, rounded to
nearest, ties to even. -/
def f64Sub (a b : F64) : F64 :=
  let e := min a.e b.e
  let av : Int := (if a.neg then -(a.m : Int) else (a.m : Int)) * 2 ^ (a.e - e).toNat
  let bv : Int := (if b.neg then -(b.m : Int) else (b.m : Int)) * 2 ^ (b.e - e).toNat
  let d := av - bv
  if d = 0 then ⟨false, 0, 0⟩
  else if 0 ≤ e then ratToF64 (d < 0) (d.natAbs * 2 ^ e.toNat) 1
  else ratToF64 (d < 0) d.natAbs (2 ^ (-e).toNat)

/-- The decimal exponent of the positive fraction `num/den`: the `d` with
`10^d ≤ num/den < 10^(d+1)`.  Fuel-structured. -/
def d10Loop : Nat → Nat → Nat → Int → Int
  | 0, _, _, d => d
  | fuel + 1, num, den, d =>
    if num < den then d10Loop fuel (num * 10) den (d - 1)
    else if den * 10 ≤ num then d10Loop fuel num (den * 10) (d + 1)
    else d

/-- `m * 2^e * 10^j` as an exact fraction. -/
def scaleRat (m : Nat) (e j : Int) : Nat × Nat :=
  let (n1, d1) : Nat × Nat := if 0 ≤ e then (m * 2 ^ e.toNat, 1) else (m, 2 ^ (-e).toNat)
  if 0 ≤ j then (n1 * 10 ^ j.toNat, d1) else (n1, d1 * 10 ^ (-j).toNat)

/-- Round the fraction `num/den` to the nearest natural, ties to even. -/
def rndNat (num den : Nat) : Nat :=
  let q := num / den
  let r := num % den
  if den < 2 * r then q + 1
  else if 2 * r < den then q
  else if q % 2 = 0 then q else q + 1

/-- The binary64 value of the decimal `D * 10^exp` (for `D > 0`). -/
def decToF64 (D : Nat) (exp : Int) : F64 :=
  let (n, d) := scaleRat D 0 exp
  ratToF64 false n d

/-- Shortest-round-trip decimal digits of the positive double `m * 2^e`:
the least `k ≤ 17` significant digits whose decimal rounding parses back to
the same double.  Returns `(D, k, d)`: the digit block `D` (with exactly
`k` digits) and the decimal exponent `d` of the value. -/
def shortestDigits (m : Nat) (e : Int) : Nat × Nat × Int :=
  let nd := scaleRat m e 0
  let d := d10Loop 800 nd.1 nd.2 0
  let rec go : Nat → Nat × Nat × Int
    | 0 => (0, 0, 0)
    | fuel + 1 =>
      let k := 18 - (fuel + 1)
      let sr := scaleRat m e ((k : Int) - 1 - d)
      let D0 := rndNat sr.1 sr.2
      let (D, d2) : Nat × Int := if D0 = 10 ^ k then (10 ^ (k - 1), d + 1) else (D0, d)
      if fuel = 0 then (D, k, d2)
      else if decToF64 D (d2 - (k : Int) + 1) = ⟨false, m, e⟩ then (D, k, d2)
      else go fuel
  go 17

/-- Fixed-point rendering of the shortest digits, following Python's `str`
for doubles in the fixed-notation range: integral values get a trailing
`.0`, values below one get a leading `0.`. -/
def fmtFixed (neg : Bool) (D : Nat) (k : Nat) (d : Int) : String :=
  let ds := (toString D).data
  let core :=
    if (k : Int) - 1 ≤ d then
      ds ++ List.replicate (d - ((k : Int) - 1)).toNat '0' ++ ['.', '0']
    else if 0 ≤ d then
      ds.take (d.toNat + 1) ++ '.' :: ds.drop (d.toNat + 1)
    else
      '0' :: '.' :: (List.replicate ((-d).toNat - 1) '0' ++ ds)
  String.mk (if neg then '-' :: core else core)

/-- Python `str()` of a float (shortest round-trip decimal, fixed
notation). -/
def pyFloatStr (x : F64) : String :=
  if x.m = 0 then (if x.neg then "-0.0" else "0.0")
  else
    let (D, k, d) := shortestDigits x.m x.e
    fmtFixed x.neg D k d

/-- The composition on lines 121 and 145:
`str(float(gross) - float(fee))`, `none` when either string fails to
parse. -/
def netAmountStr (gross fee : String) : Option String :=
  (pyFloatOfString gross).bind fun a =>
    (pyFloatOfString fee).map fun b => pyFloatStr (f64Sub a b)

set_option maxRecDepth 8000

example : pyFloatOfString "0.1" = some ⟨false, 7205759403792794, -56⟩ := by decide

example : netAmountStr "0.10" "0.02" = some "0.08" := by decide

example : netAmountStr "0.30" "0.10" = some "0.19999999999999998" := by decide

example : netAmountStr "50.00" "0.00" = some "50.0" := by decide

/-! ## Effects, exceptions and the handler monad -/

/-- An observable write to a sink: `save_record` performs the DynamoDB
`put_item` with item `{'id': id, 'data_type': dataType, **data}` (lines
64-79); `append_to_google_sheet` appends one row (lines 33-51).  The sink
clients are external collaborators; the trace records what was handed to
them. -/
inductive Effect where
  | save (id : JVal) (dataType : String) (data : List (String × JVal)) : Effect
  | sheetAppend (row : List JVal) : Effect
  deriving DecidableEq

/-- A Python exception, as far as `lambda_handler`'s `except` clauses can
tell them apart: `valueError` is caught on line 251 (status 400), every
other constructor falls to the generic handler on line 257 (status 500). -/
inductive PyErr where
  | valueError (msg : String) : PyErr
  | keyError (key : String) : PyErr
  | typeError : PyErr
  | attributeError (attr : String) : PyErr
  | indexError : PyErr
  deriving DecidableEq

/-- Handler computations: state-passing over the effect trace with Python
exceptions.  An exception raised after an effect keeps the effects already
performed, exactly as in the source. -/
def PyM (α : Type) : Type := List Effect → Except PyErr α × List Effect

instance : Monad PyM where
  pure a := fun s => (.ok a, s)
  bind m f := fun s =>
    match m s with
    | (.ok a, s1) => f a s1
    | (.error e, s1) => (.error e, s1)

/-- Raise a Python exception. -/
def pyThrow {α : Type} (e : PyErr) : PyM α := fun s => (.error e, s)

/-- Record one sink write. -/
def emit (eff : Effect) : PyM Unit := fun s => (.ok (), s ++ [eff])

/-- Run a handler computation on the empty trace. -/
def PyM.run {α : Type} (m : PyM α) : Except PyErr α × List Effect := m []

/-! ## Python operations on `JVal` -/

/-- `o.get(k, dflt)`: dict lookup with default; calling `.get` on a
non-dict raises `AttributeError`. -/
def pyGetD (o : JVal) (k : String) (dflt : JVal) : PyM JVal :=
  match o with
  | .jobj fs => pure ((jfind fs k).getD dflt)
  | _ => pyThrow (.attributeError "get")

/-- `o.get(k)`: dict lookup defaulting to `None`. -/
def pyGetN (o : JVal) (k : String) : PyM JVal :=
  pyGetD o k .jnull

/-- `o[k]` for a string key: raises `KeyError` when the key is absent and
`TypeError` when `o` is not a dict. -/
def pySubscript (o : JVal) (k : String) : PyM JVal :=
  match o with
  | .jobj fs =>
    match jfind fs k with
    | some v => pure v
    | none => pyThrow (.keyError k)
  | _ => pyThrow .typeError

/-- `o[0]` on a list (`purchase_units[0]`, `captures[0]`). -/
def pyIndex0 (o : JVal) : PyM JVal :=
  match o with
  | .jarr (.cons v _) => pure v
  | .jarr .nil => pyThrow .indexError
  | _ => pyThrow .typeError

/-- `custom_id.split(...)` requires a `str` receiver; on `None` (or any
non-string) Python raises `AttributeError`. -/
def asStr (o : JVal) : PyM String :=
  match o with
  | .jstr s => pure s
  | _ => pyThrow (.attributeError "split")

/-- Python `+` on two values where the left side is a string
(`given_name + ' ' + surname`): concatenation, `TypeError` otherwise. -/
def pyStrAdd (a b : JVal) : PyM JVal :=
  match a, b with
  | .jstr x, .jstr y => pure (.jstr (x ++ y))
  | _, _ => pyThrow .typeError

/-- Substring test on character lists (Python `needle in haystack` for
strings). -/
def containsSub (needle : List Char) : List Char → Bool
  | [] => decide (needle = [])
  | c :: cs => decide (needle = (c :: cs).take needle.length) || containsSub needle cs

/-- Python `field in body`: key test on dicts, membership on lists,
substring test on strings, `TypeError` otherwise. -/
def pyContains (o : JVal) (field : String) : PyM Bool :=
  match o with
  | .jobj fs => pure (jfind fs field).isSome
  | .jarr xs =>
    pure (go xs)
  | .jstr s => pure (containsSub field.data s.data)
  | _ => pyThrow .typeError
where
  /-- list membership against the string `field` under Python `==` -/
  go : JList → Bool
    | .nil => false
    | .cons v tl => (v = .jstr field : Bool) || go tl

/-- Python `==` between a handler value and a string literal (the routing
comparisons on lines 233-237): only equal when the value is that string. -/
def pyEqStr (v : JVal) (lit : String) : Bool :=
  match v with
  | .jstr s => s = lit
  | _ => false

/-- Python `float(v)` (lines 121): correctly rounded parse of a decimal
string (`ValueError` on a malformed one), exact conversion of numbers and
booleans, `TypeError` on anything else. -/
def pyFloat (v : JVal) : PyM F64 :=
  match v with
  | .jstr s =>
    match pyFloatOfString s with
    | some x => pure x
    | none => pyThrow (.valueError "could not convert string to float")
  | .jnum n => pure (if n < 0 then ratToF64 true n.natAbs 1 else ratToF64 false n.natAbs 1)
  | .jbool b => pure (if b then ratToF64 false 1 1 else ⟨false, 0, 0⟩)
  | _ => pyThrow .typeError

/-! ## The validators and handlers of `index.py` -/

/-- `validate_event_body` (lines 53-57): requires `event_type` and
`resource` keys, raising `ValueError` otherwise.  (`field not in body` also
raises `TypeError` on non-container bodies, which the `in` test models.) -/
def validate_event_body (body : JVal) : PyM Unit := do
  let h1 ← pyContains body "event_type"
  if !h1 then
    pyThrow (.valueError "Missing required field: event_type")
  let h2 ← pyContains body "resource"
  if !h2 then
    pyThrow (.valueError "Missing required field: resource")

/-- The `Content-Type` error message (the source text carries single
quotes around `application/json`). -/
def invalidCTMsg : String :=
  "Invalid Content-Type. Expected " ++ sq ++ "application/json" ++ sq ++ "."

/-- `validate_content_type` (lines 59-62). -/
def validate_content_type (headers : JVal) : PyM Unit := do
  let ct ← pyGetN headers "Content-Type"
  if !(pyEqStr ct "application/json") then
    pyThrow (.valueError invalidCTMsg)

/-- `save_record` (lines 64-79): the DynamoDB upsert, recorded as an
effect.  `record_data` never contains the keys `id` or `data_type`, so the
`**record_data` merge is the plain juxtaposition recorded here. -/
def save_record (id : JVal) (dataType : String) (data : List (String × JVal)) : PyM Unit :=
  emit (.save id dataType data)

/-- `append_to_google_sheet` (lines 33-51), recorded as an effect. -/
def append_to_google_sheet (row : List JVal) : PyM Unit :=
  emit (.sheetAppend row)

/-- `process_subscription_created` (lines 81-111).  The sentinel lookups
sit inside the segment loop in the source (lines 100-102); since
`split('|')` always yields at least one segment, their final values equal
the lookups on the completed `parts` dict, which is how they are written
here. -/
def process_subscription_created (resource : JVal) : PyM Unit := do
  let billing_agreement_id ← pyGetN resource "id"
  let subscription_create_time ← pyGetN resource "create_time"
  let custom_id ← pyGetD resource "custom_id" (.jstr "")
  let tag ← asStr custom_id
  let parts := tagParts tag
  let purpose := dictGet parts "purpose" "Unknown_Purpose"
  let user_email := dictGet parts "email" "Unknown_Email"
  let user_name := dictGet parts "user_name" "Unknown_Name"
  save_record billing_agreement_id "subscription"
    [("user_name", .jstr user_name),
     ("purpose", .jstr purpose),
     ("user_email", .jstr user_email),
     ("create_time", subscription_create_time)]

/-- `process_subscription_payment` (lines 113-149).  Lines 118-119 use
hard subscripts `resource['amount']['total']` / `['currency']`, so an
absent `amount`, `total` or `currency` raises `KeyError` (or `TypeError`
when `amount` is not a dict) — not `ValueError`. -/
def process_subscription_payment (resource : JVal) : PyM Unit := do
  let billing_agreement_id ← pyGetN resource "billing_agreement_id"
  let amount_value ← pySubscript (← pySubscript resource "amount") "total"
  let amount_currency ← pySubscript (← pySubscript resource "amount") "currency"
  let tf_obj ← pyGetD resource "transaction_fee" (.jobj .nil)
  let transaction_fee ← pyGetD tf_obj "value" (.jstr "0.00")
  let gross ← pyFloat amount_value
  let fee ← pyFloat transaction_fee
  let net_amount := f64Sub gross fee
  let custom_id ← pyGetD resource "custom" (.jstr "")
  let tag ← asStr custom_id
  let parts := tagParts tag
  let purpose := dictGet parts "purpose" "Unknown_Purpose"
  let user_email := dictGet parts "email" "Unknown_Email"
  let user_name := dictGet parts "user_name" "Unknown_Name"
  let create_time ← pyGetD resource "create_time" (.jstr "Unknown_Time")
  save_record billing_agreement_id "payment"
    [("purpose", .jstr purpose),
     ("user_name", .jstr user_name),
     ("user_email", .jstr user_email),
     ("amount_value", amount_value),
     ("amount_currency", amount_currency),
     ("transaction_fee", transaction_fee),
     ("net_amount", .jstr (pyFloatStr net_amount)),
     ("create_time", create_time)]

/-- `process_order_approved` (lines 151-218).  The surrounding
`try/except` only prints and re-raises (lines 216-218), so it does not
change the semantics.  Line 175 calls `purchase_unit.get("custom_id")`
with no default: a missing `custom_id` leaves `None`, and
`custom_id.split('|')` then raises `AttributeError`. -/
def process_order_approved (resource : JVal) : PyM Unit := do
  let id ← pyGetD resource "id" (.jstr "Unknown_ID")
  let purchase_units ← pyGetD resource "purchase_units" (.jarr .nil)
  if !(pyTruthy purchase_units) then
    pyThrow (.valueError "Missing purchase_units in resource.")
  let purchase_unit ← pyIndex0 purchase_units
  let amount ← pyGetD purchase_unit "amount" (.jobj .nil)
  let amount_value ← pyGetD amount "value" (.jstr "0.00")
  let amount_currency ← pyGetD amount "currency_code" (.jstr "USD")
  let payer ← pyGetD resource "payer" (.jobj .nil)
  let payer_email ← pyGetD payer "email_address" (.jstr "Unknown_Email")
  let name_dict ← pyGetD payer "name" (.jobj .nil)
  let given ← pyGetD name_dict "given_name" (.jstr "Unknown_Name")
  let surname ← pyGetD name_dict "surname" (.jstr "Unknown_Surname")
  let payer_name ← pyStrAdd (← pyStrAdd given (.jstr " ")) surname
  let payments ← pyGetD purchase_unit "payments" (.jobj .nil)
  let captures ← pyGetD payments "captures" (.jarr .nil)
  let first_capture ← if pyTruthy captures then pyIndex0 captures else pure (.jobj .nil)
  let seller_breakdown ← pyGetD first_capture "seller_receivable_breakdown" (.jobj .nil)
  let paypal_fee_obj ← pyGetD seller_breakdown "paypal_fee" (.jobj .nil)
  let payment_fee ← pyGetD paypal_fee_obj "value" (.jstr "0.00")
  let net_obj ← pyGetD seller_breakdown "net_amount" (.jobj .nil)
  let net_amount ← pyGetD net_obj "value" (.jstr "0.00")
  let custom_id ← pyGetN purchase_unit "custom_id"
  let tag ← asStr custom_id
  let parts := tagParts tag
  let purpose := dictGet parts "purpose" "Unknown_Purpose"
  let user_email := dictGet parts "email" "Unknown_Email"
  let user_name := dictGet parts "user_name" "Unknown_Name"
  let create_time_gs ← pyGetD resource "create_time" (.jstr "Unknown_Time")
  append_to_google_sheet
    [id, .jstr purpose, payer_name, payer_email, amount_value, amount_currency, create_time_gs]
  let create_time_db ← pyGetD resource "create_time" (.jstr "Unknown_Time")
  save_record id "payment"
    [("purpose", .jstr purpose),
     ("user_name", .jstr user_name),
     ("payer_name", payer_name),
     ("user_email", .jstr user_email),
     ("payer_email", payer_email),
     ("amount_value", amount_value),
     ("amount_currency", amount_currency),
     ("transaction_fee", payment_fee),
     ("net_amount", net_amount),
     ("create_time", create_time_db)]

/-! ## `lambda_handler` -/

/-- The `body` field of the inbound event.  A string body is represented
together with the outcome of `json.loads` on it (the stdlib parser is an
external component; `json.JSONDecodeError` is a subclass of `ValueError`,
so a parse failure takes the 400 path). -/
inductive PyBody where
  | decoded (v : JVal) : PyBody
  | encoded (parse : Except String JVal) : PyBody

/-- The inbound Lambda event: `event.get('headers', {})` and
`event['body']` (a missing `body` key raises `KeyError`). -/
structure LambdaEvent where
  headers? : Option JVal
  body? : Option PyBody

/-- The response body: `json.dumps({'message': ...})` on success,
`json.dumps({'error': ...})` on failure.  The model records the structured
content handed to `json.dumps`. -/
inductive RespBody where
  | message (s : String) : RespBody
  | error (s : String) : RespBody
  deriving DecidableEq

/-- The HTTP-style response of `lambda_handler`. -/
structure HttpResp where
  statusCode : Nat
  body : RespBody
  deriving DecidableEq

/-- The `try` block of `lambda_handler` (lines 221-249).  The source's
single `return` on line 246 after the `if/elif` chain is flattened into
each matched branch; the unhandled branch is the early `return` on line
241. -/
def lambda_handler_try (event : LambdaEvent) : PyM HttpResp := do
  let headers := event.headers?.getD (.jobj .nil)
  let body ← match event.body? with
    | none => pyThrow (.keyError "body")
    | some (.encoded (.error msg)) => pyThrow (.valueError msg)
    | some (.encoded (.ok v)) => pure v
    | some (.decoded v) => pure v
  validate_content_type headers
  validate_event_body body
  let event_type ← pyGetN body "event_type"
  let resource ← pyGetN body "resource"
  if pyEqStr event_type "BILLING.SUBSCRIPTION.CREATED" then
    process_subscription_created resource
    pure ⟨200, .message ("Event type " ++ pyStr event_type ++ " processed successfully.")⟩
  else if pyEqStr event_type "PAYMENT.SALE.COMPLETED" then
    process_subscription_payment resource
    pure ⟨200, .message ("Event type " ++ pyStr event_type ++ " processed successfully.")⟩
  else if pyEqStr event_type "CHECKOUT.ORDER.APPROVED" then
    process_order_approved resource
    pure ⟨200, .message ("Event type " ++ pyStr event_type ++ " processed successfully.")⟩
  else
    pure ⟨200, .message ("Event type " ++ pyStr event_type ++ " not processed.")⟩

/-- `lambda_handler` (lines 220-262): run the pipeline and map the
outcome — `ValueError` to 400 with the exception text, any other exception
to 500 with a generic error body.  Returns the response together with the
sink-effect trace of the invocation. -/
def lambda_handler (event : LambdaEvent) : HttpResp × List Effect :=
  match (lambda_handler_try event) [] with
  | (.ok resp, effs) => (resp, effs)
  | (.error (.valueError msg), effs) => (⟨400, .error msg⟩, effs)
  | (.error _, effs) => (⟨500, .error "An unexpected error occurred."⟩, effs)

/-! ## Spec-side definitions

These capture the spec's words, for comparison with the embedded code
(refinement-style claims C5 and C8).  They are deliberately written from
the specification, not from `index.py`. -/

/-- Joining character lists with a separator. -/
def joinSep (sep : Char) : List (List Char) → List Char
  | [] => []
  | [x] => x
  | x :: xs => x ++ sep :: joinSep sep xs

/-- Spec §8's re-encode step: join each entry with `:` and the entries
with `|`. -/
def encodeTag (l : List (String × String)) : String :=
  String.mk (joinSep '|' (l.map (fun p => p.1.data ++ ':' :: p.2.data)))

/-- An optionally signed decimal string as an exact scaled integer:
`some (m, f)` means the value `m / 10^f`. -/
def parseSignedDec (s : String) : Option (Int × Nat) :=
  match s.data with
  | '-' :: rest => (parseDecParts rest).map (fun p => (-(p.1 : Int), p.2))
  | '+' :: rest => (parseDecParts rest).map (fun p => ((p.1 : Int), p.2))
  | cs => (parseDecParts cs).map (fun p => ((p.1 : Int), p.2))

/-- Drop trailing zero decimal places of `n / 10^s`. -/
def stripZeros : Int → Nat → Int × Nat
  | n, 0 => (n, 0)
  | n, s + 1 => if n % 10 = 0 then stripZeros (n / 10) s else (n, s + 1)

/-- Canonical decimal rendering of `n / 10^f`. -/
def fmtDec (n : Int) (f : Nat) : String :=
  let a := n.natAbs
  let ip := a / 10 ^ f
  let fp := a % 10 ^ f
  let frac :=
    if f = 0 then "" else
      let ds := (toString fp).data
      String.mk ('.' :: (List.replicate (f - ds.length) '0' ++ ds))
  (if n < 0 then "-" else "") ++ toString ip ++ frac

/-- Spec §4.4 and §8: the EXACT decimal difference `gross - fee` of two
decimal strings, re-stringified canonically.  (The code instead computes
in binary64; C5 compares the two.) -/
def exactDecSub (gross fee : String) : Option String :=
  (parseSignedDec gross).bind fun a =>
    (parseSignedDec fee).map fun b =>
      let f := max a.2 b.2
      let d := a.1 * (10 : Int) ^ (f - a.2) - b.1 * (10 : Int) ^ (f - b.2)
      let (n, s) := stripZeros d f
      fmtDec n s

example : exactDecSub "0.30" "0.10" = some "0.2" := by decide

example : exactDecSub "0.10" "0.02" = some "0.08" := by decide

/-- Whether the two hard subscripts on lines 118-119 both succeed: the
resource is a dict whose `amount` member is a dict containing both
`total` and `currency`. -/
def hasAmountFields (r : JVal) : Bool :=
  match r with
  | .jobj fs =>
    match jfind fs "amount" with
    | some (.jobj afs) => (jfind afs "total").isSome && (jfind afs "currency").isSome
    | _ => false
  | _ => false

/-! ## Concrete test fixtures used by the closed claim theorems -/

/-- Headers declaring `application/json`. -/
def jsonHeaders : JVal := .jobj (.cons "Content-Type" (.jstr "application/json") .nil)

/-- A decoded event envelope with the given type and resource. -/
def mkEvent (eventType : String) (resource : JVal) : LambdaEvent :=
  { headers? := some jsonHeaders,
    body? := some (.decoded (.jobj
      (.cons "event_type" (.jstr eventType)
      (.cons "resource" resource .nil)))) }

/-- C1's failing payload: a completed-sale resource whose `amount` has
`total` but no `currency`. -/
def missingCurrencyEvent : LambdaEvent :=
  mkEvent "PAYMENT.SALE.COMPLETED"
    (.jobj (.cons "amount" (.jobj (.cons "total" (.jstr "50.00") .nil)) .nil))

/-- C4's failing payload: an approved order whose first purchase unit has
no `custom_id` field at all. -/
def noCustomIdOrderEvent : LambdaEvent :=
  mkEvent "CHECKOUT.ORDER.APPROVED"
    (.jobj (.cons "purchase_units" (.jarr (.cons (.jobj .nil) .nil)) .nil))

/-- C5's failing payload: a completed sale with gross `0.30` and fee
`0.10`. -/
def grossFeeResource : JVal :=
  .jobj
    (.cons "amount" (.jobj (.cons "total" (.jstr "0.30") (.cons "currency" (.jstr "USD") .nil)))
    (.cons "transaction_fee" (.jobj (.cons "value" (.jstr "0.10") .nil)) .nil))

/-- C9's payload: a created subscription carrying the three-field custom
tag. -/
def subCreatedEvent : LambdaEvent :=
  mkEvent "BILLING.SUBSCRIPTION.CREATED"
    (.jobj
      (.cons "id" (.jstr "I-SUB1")
      (.cons "create_time" (.jstr "2024-12-01T00:00:00Z")
      (.cons "custom_id" (.jstr "purpose:Donation|email:a@b.com|user_name:Jane Doe") .nil))))

/-! ## Reduction lemmas for the handler monad -/

@[simp] theorem run_bind {α β : Type} (m : PyM α) (f : α → PyM β) (s : List Effect) :
    (m >>= f) s =
      match m s with
      | (.ok a, s1) => f a s1
      | (.error e, s1) => (.error e, s1) := rfl

@[simp] theorem run_pure {α : Type} (a : α) (s : List Effect) :
    (Pure.pure a : PyM α) s = (.ok a, s) := rfl

@[simp] theorem run_pyThrow {α : Type} (e : PyErr) (s : List Effect) :
    (pyThrow e : PyM α) s = (.error e, s) := rfl

@[simp] theorem run_emit (eff : Effect) (s : List Effect) :
    emit eff s = (.ok (), s ++ [eff]) := rfl

@[simp] theorem pyGetD_obj (fs : JFields) (k : String) (d : JVal) :
    pyGetD (.jobj fs) k d = (Pure.pure ((jfind fs k).getD d) : PyM JVal) := rfl

@[simp] theorem pyGetN_obj (fs : JFields) (k : String) :
    pyGetN (.jobj fs) k = (Pure.pure ((jfind fs k).getD .jnull) : PyM JVal) := rfl

@[simp] theorem pyEqStr_jstr (s lit : String) :
    pyEqStr (.jstr s) lit = decide (s = lit) := rfl

/-! ## Lemmas about Python string splitting -/

theorem pySplitChars_ne_nil (sep : Char) : ∀ cs : List Char, pySplitChars sep cs ≠ []
  | [] => by simp [pySplitChars]
  | c :: cs => by
    have ih := pySplitChars_ne_nil sep cs
    unfold pySplitChars
    cases h : pySplitChars sep cs with
    | nil => exact absurd h ih
    | cons s rest => by_cases hc : c = sep <;> simp [hc]

theorem pySplitChars_sepFree (sep : Char) :
    ∀ cs : List Char, sep ∉ cs → pySplitChars sep cs = [cs]
  | [], _ => rfl
  | c :: cs, h => by
    have hc : ¬(c = sep) := fun h2 => h (h2 ▸ List.mem_cons_self c cs)
    have ih := pySplitChars_sepFree sep cs (fun h2 => h (List.mem_cons_of_mem c h2))
    unfold pySplitChars
    rw [ih]
    simp [hc]

theorem pySplitChars_append (sep : Char) :
    ∀ xs ys : List Char, sep ∉ xs →
      pySplitChars sep (xs ++ sep :: ys) = xs :: pySplitChars sep ys
  | [], ys, _ => by
    have hne := pySplitChars_ne_nil sep ys
    cases h : pySplitChars sep ys with
    | nil => exact absurd h hne
    | cons s rest =>
      have heq : pySplitChars sep (([] : List Char) ++ sep :: ys) =
          match pySplitChars sep ys with
          | [] => [[]]
          | s :: rest => if sep = sep then [] :: s :: rest else (sep :: s) :: rest := rfl
      rw [heq, h]
      simp
  | x :: xs, ys, h => by
    have hx : ¬(x = sep) := fun h2 => h (h2 ▸ List.mem_cons_self x xs)
    have ih := pySplitChars_append sep xs ys (fun h2 => h (List.mem_cons_of_mem x h2))
    have heq : pySplitChars sep ((x :: xs) ++ sep :: ys) =
        match pySplitChars sep (xs ++ sep :: ys) with
        | [] => [[]]
        | s :: rest => if x = sep then [] :: s :: rest else (x :: s) :: rest := rfl
    rw [heq, ih]
    simp [hx]

theorem pySplitChars_two_le (sep : Char) :
    ∀ cs : List Char, sep ∈ cs → 2 ≤ (pySplitChars sep cs).length
  | [], h => absurd h (List.not_mem_nil sep)
  | c :: cs, h => by
    unfold pySplitChars
    cases hs : pySplitChars sep cs with
    | nil => exact absurd hs (pySplitChars_ne_nil sep cs)
    | cons s rest =>
      by_cases hc : c = sep
      · simp [hc]
      · have hmem : sep ∈ cs := by
          cases List.mem_cons.mp h with
          | inl h2 => exact absurd h2.symm hc
          | inr h2 => exact h2
        have ih := pySplitChars_two_le sep cs hmem
        rw [hs] at ih
        simpa [hc] using ih

theorem pySplitChars_joinSep (sep : Char) :
    ∀ xs : List (List Char), xs ≠ [] → (∀ x ∈ xs, sep ∉ x) →
      pySplitChars sep (joinSep sep xs) = xs
  | [], h, _ => absurd rfl h
  | [x], _, hfree => by
    have := pySplitChars_sepFree sep x (hfree x (List.mem_singleton.mpr rfl))
    simpa [joinSep] using this
  | x :: y :: ys, _, hfree => by
    have hx : sep ∉ x := hfree x (List.mem_cons_self x (y :: ys))
    have ih := pySplitChars_joinSep sep (y :: ys) (by simp)
      (fun z hz => hfree z (List.mem_cons_of_mem x hz))
    show pySplitChars sep (x ++ sep :: joinSep sep (y :: ys)) = x :: y :: ys
    rw [pySplitChars_append sep x _ hx, ih]

/-! ## Lemmas about the tag decoder -/

theorem string_eta (s : String) : String.mk s.data = s := by
  cases s
  rfl

theorem dictSet_of_fresh (m : List (String × String)) (k v : String)
    (h : ∀ p ∈ m, p.1 ≠ k) : dictSet m k v = m ++ [(k, v)] := by
  unfold dictSet
  have hfalse : m.any (fun p => decide (p.1 = k)) = false := by
    rw [List.any_eq_false]
    intro p hp
    simp [h p hp]
  simp [hfalse]

theorem tagStep_pair (parts : List (String × String)) (k v : String)
    (hk : ':' ∉ k.data) (hv : ':' ∉ v.data) :
    tagStep parts (k.data ++ ':' :: v.data) = dictSet parts k v := by
  unfold tagStep
  rw [pySplitChars_append ':' k.data v.data hk, pySplitChars_sepFree ':' v.data hv]

theorem tagStep_skip (parts : List (String × String)) (seg : List Char)
    (h : ¬(pySplitChars ':' seg).length = 2) :
    tagStep parts seg = parts := by
  unfold tagStep
  cases hs : pySplitChars ':' seg with
  | nil => rfl
  | cons a tl =>
    cases tl with
    | nil => rfl
    | cons b tl2 =>
      cases tl2 with
      | nil => exact absurd (by simp [hs]) h
      | cons c tl3 => rfl

theorem foldl_tagStep (l : List (String × String)) :
    ∀ acc : List (String × String),
      (∀ p ∈ l, ':' ∉ p.1.data ∧ ':' ∉ p.2.data) →
      (l.map Prod.fst).Nodup →
      (∀ p ∈ acc, p.1 ∉ l.map Prod.fst) →
      (l.map (fun p => p.1.data ++ ':' :: p.2.data)).foldl tagStep acc = acc ++ l := by
  induction l with
  | nil => intro acc _ _ _; simp
  | cons p l ih =>
    intro acc hfree hnd hdisj
    have hp := hfree p (List.mem_cons_self p l)
    have hstep : tagStep acc (p.1.data ++ ':' :: p.2.data) = acc ++ [p] := by
      rw [tagStep_pair acc p.1 p.2 hp.1 hp.2]
      exact dictSet_of_fresh acc p.1 p.2
        (fun q hq h2 => hdisj q hq (h2 ▸ List.mem_cons_self p.1 (l.map Prod.fst) : q.1 ∈ _))
    have hnd2 : (l.map Prod.fst).Nodup := (List.nodup_cons.mp hnd).2
    have hp1 : p.1 ∉ l.map Prod.fst := (List.nodup_cons.mp hnd).1
    have hdisj2 : ∀ q ∈ acc ++ [p], q.1 ∉ l.map Prod.fst := by
      intro q hq
      cases List.mem_append.mp hq with
      | inl h2 => exact fun h3 => hdisj q h2 (List.mem_cons_of_mem p.1 h3)
      | inr h2 =>
        have : q = p := List.mem_singleton.mp h2
        rw [this]
        exact hp1
    have := ih (acc ++ [p]) (fun q hq => hfree q (List.mem_cons_of_mem p hq)) hnd2 hdisj2
    simp only [List.map_cons, List.foldl_cons, hstep, this, List.append_assoc,
      List.singleton_append]

/-! ## Routing lemmas: reducing `lambda_handler` on a valid envelope to
the dispatched handler -/

theorem lambda_handler_payment_route (hf bf : JFields) (r : JVal)
    (hct : jfind hf "Content-Type" = some (.jstr "application/json"))
    (hev : jfind bf "event_type" = some (.jstr "PAYMENT.SALE.COMPLETED"))
    (hres : jfind bf "resource" = some r) :
    lambda_handler ⟨some (.jobj hf), some (.decoded (.jobj bf))⟩ =
      match (process_subscription_payment r) [] with
      | (.ok _, effs) =>
        (⟨200, .message "Event type PAYMENT.SALE.COMPLETED processed successfully."⟩, effs)
      | (.error (.valueError msg), effs) => (⟨400, .error msg⟩, effs)
      | (.error _, effs) => (⟨500, .error "An unexpected error occurred."⟩, effs) := by
  unfold lambda_handler lambda_handler_try
  cases h : (process_subscription_payment r) [] with
  | mk res effs =>
    cases res with
    | ok a =>
      simp [validate_content_type, validate_event_body, pyContains, pyEqStr,
        pyStr, pyRepr, hct, hev, hres, h]
    | error e =>
      cases e <;>
        simp [validate_content_type, validate_event_body, pyContains, pyEqStr,
          pyStr, pyRepr, hct, hev, hres, h]

theorem lambda_handler_order_route (hf bf : JFields) (r : JVal)
    (hct : jfind hf "Content-Type" = some (.jstr "application/json"))
    (hev : jfind bf "event_type" = some (.jstr "CHECKOUT.ORDER.APPROVED"))
    (hres : jfind bf "resource" = some r) :
    lambda_handler ⟨some (.jobj hf), some (.decoded (.jobj bf))⟩ =
      match (process_order_approved r) [] with
      | (.ok _, effs) =>
        (⟨200, .message "Event type CHECKOUT.ORDER.APPROVED processed successfully."⟩, effs)
      | (.error (.valueError msg), effs) => (⟨400, .error msg⟩, effs)
      | (.error _, effs) => (⟨500, .error "An unexpected error occurred."⟩, effs) := by
  unfold lambda_handler lambda_handler_try
  cases h : (process_order_approved r) [] with
  | mk res effs =>
    cases res with
    | ok a =>
      simp [validate_content_type, validate_event_body, pyContains, pyEqStr,
        pyStr, pyRepr, hct, hev, hres, h]
    | error e =>
      cases e <;>
        simp [validate_content_type, validate_event_body, pyContains, pyEqStr,
          pyStr, pyRepr, hct, hev, hres, h]

theorem lambda_handler_unknown_route (hf bf : JFields) (et r : JVal)
    (hct : jfind hf "Content-Type" = some (.jstr "application/json"))
    (hev : jfind bf "event_type" = some et)
    (hres : jfind bf "resource" = some r)
    (h1 : pyEqStr et "BILLING.SUBSCRIPTION.CREATED" = false)
    (h2 : pyEqStr et "PAYMENT.SALE.COMPLETED" = false)
    (h3 : pyEqStr et "CHECKOUT.ORDER.APPROVED" = false) :
    lambda_handler ⟨some (.jobj hf), some (.decoded (.jobj bf))⟩ =
      (⟨200, .message ("Event type " ++ pyStr et ++ " not processed.")⟩, []) := by
  unfold lambda_handler lambda_handler_try
  simp [validate_content_type, validate_event_body, pyContains,
    hct, hev, hres, h1, h2, h3]

/-- When the payment-sale resource fails the `amount.total` /
`amount.currency` access, `process_subscription_payment` stops with an
exception that is not a `ValueError`, having performed no writes. -/
theorem payment_amount_missing (r : JVal) (hmiss : hasAmountFields r = false) :
    ∃ e : PyErr, (process_subscription_payment r) [] = (.error e, []) ∧
      ∀ msg, e ≠ .valueError msg := by
  cases r with
  | jnull => exact ⟨.attributeError "get", rfl, fun msg h => PyErr.noConfusion h⟩
  | jbool b => exact ⟨.attributeError "get", rfl, fun msg h => PyErr.noConfusion h⟩
  | jnum n => exact ⟨.attributeError "get", rfl, fun msg h => PyErr.noConfusion h⟩
  | jstr s => exact ⟨.attributeError "get", rfl, fun msg h => PyErr.noConfusion h⟩
  | jarr xs => exact ⟨.attributeError "get", rfl, fun msg h => PyErr.noConfusion h⟩
  | jobj fs =>
    cases h1 : jfind fs "amount" with
    | none =>
      refine ⟨.keyError "amount", ?_, fun msg h => PyErr.noConfusion h⟩
      simp [process_subscription_payment, pySubscript, h1]
    | some a =>
      cases a with
      | jobj afs =>
        cases h2 : jfind afs "total" with
        | none =>
          refine ⟨.keyError "total", ?_, fun msg h => PyErr.noConfusion h⟩
          simp [process_subscription_payment, pySubscript, h1, h2]
        | some tv =>
          cases h3 : jfind afs "currency" with
          | none =>
            refine ⟨.keyError "currency", ?_, fun msg h => PyErr.noConfusion h⟩
            simp [process_subscription_payment, pySubscript, h1, h2, h3]
          | some cv =>
            exfalso
            simp [hasAmountFields, h1, h2, h3] at hmiss
      | jnull =>
        refine ⟨.typeError, ?_, fun msg h => PyErr.noConfusion h⟩
        simp [process_subscription_payment, pySubscript, h1]
      | jbool b =>
        refine ⟨.typeError, ?_, fun msg h => PyErr.noConfusion h⟩
        simp [process_subscription_payment, pySubscript, h1]
      | jnum n =>
        refine ⟨.typeError, ?_, fun msg h => PyErr.noConfusion h⟩
        simp [process_subscription_payment, pySubscript, h1]
      | jstr s =>
        refine ⟨.typeError, ?_, fun msg h => PyErr.noConfusion h⟩
        simp [process_subscription_payment, pySubscript, h1]
      | jarr xs =>
        refine ⟨.typeError, ?_, fun msg h => PyErr.noConfusion h⟩
        simp [process_subscription_payment, pySubscript, h1]

/-! ## The claims -/

/-- C1, as stated, is false on the code: the hard subscripts on lines
118-119 raise `KeyError` (not `ValueError`), so `lambda_handler` answers
500, not 400.  Concretely: a PAYMENT.SALE.COMPLETED event whose
`resource.amount` has `total` but no `currency` yields status 500 (and no
write), refuting the claimed 400. -/
theorem claim_C1_counterexample :
    lambda_handler missingCurrencyEvent =
      (⟨500, .error "An unexpected error occurred."⟩, [])
    ∧ (lambda_handler missingCurrencyEvent).1.statusCode ≠ 400 := by
  constructor
  · rfl
  · decide

/-- C1 (amended): for every PAYMENT.SALE.COMPLETED event whose resource
lacks `amount.total` or `amount.currency` (including a missing or
non-object `amount`), `lambda_handler` returns status 500 with the generic
error body — the failed access raises `KeyError` / `TypeError` /
`AttributeError`, none of which is a `ValueError` — and no record is
persisted to either sink. -/
theorem claim_C1_amended (hf bf : JFields) (r : JVal)
    (hct : jfind hf "Content-Type" = some (.jstr "application/json"))
    (hev : jfind bf "event_type" = some (.jstr "PAYMENT.SALE.COMPLETED"))
    (hres : jfind bf "resource" = some r)
    (hmiss : hasAmountFields r = false) :
    lambda_handler ⟨some (.jobj hf), some (.decoded (.jobj bf))⟩ =
      (⟨500, .error "An unexpected error occurred."⟩, []) := by
  obtain ⟨e, he, hnv⟩ := payment_amount_missing r hmiss
  rw [lambda_handler_payment_route hf bf r hct hev hres, he]
  cases e with
  | valueError msg => exact absurd rfl (hnv msg)
  | keyError k => rfl
  | typeError => rfl
  | attributeError a => rfl
  | indexError => rfl

/-- Witness for C1 (amended) at a concrete event whose resource has no
`amount` at all. -/
theorem claim_C1_witness :
    lambda_handler
      ⟨some (.jobj (.cons "Content-Type" (.jstr "application/json") .nil)),
       some (.decoded (.jobj
        (.cons "event_type" (.jstr "PAYMENT.SALE.COMPLETED")
        (.cons "resource" (.jobj .nil) .nil))))⟩ =
      (⟨500, .error "An unexpected error occurred."⟩, []) :=
  claim_C1_amended
    (.cons "Content-Type" (.jstr "application/json") .nil)
    (.cons "event_type" (.jstr "PAYMENT.SALE.COMPLETED")
      (.cons "resource" (.jobj .nil) .nil))
    (.jobj .nil) (by decide) (by decide) (by decide) (by decide)

theorem string_data_append (s t : String) : (s ++ t).data = s.data ++ t.data := by
  cases s
  cases t
  rfl

/-- C2, as stated, is false on the code: the decoder splits each segment
on EVERY `:` (`segment.split(':')`), so a segment whose value contains a
`:` yields three or more parts and is skipped.  Concretely, the segment
`time:12:00` contributes nothing: the resulting map is empty and a lookup
of `time` falls back to its default. -/
theorem claim_C2_counterexample :
    tagParts "time:12:00" = []
    ∧ dictGet (tagParts "time:12:00") "time" "ABSENT" = "ABSENT" := by
  constructor
  · rfl
  · rfl

/-- C2 (amended): for every custom-tag segment `key:value` whose value
itself contains a `:` (and that is the whole tag, keys and values free of
`|`), the decoder splits on every `:`, obtains more than two parts, and
SKIPS the segment: the key is not bound in the resulting map. -/
theorem claim_C2_amended (k v : String)
    (hk : ':' ∉ k.data) (hkp : '|' ∉ k.data)
    (hv : ':' ∈ v.data) (hvp : '|' ∉ v.data) :
    tagParts (k ++ ":" ++ v) = [] := by
  have hdata : (k ++ ":" ++ v).data = k.data ++ ':' :: v.data := by
    rw [string_data_append, string_data_append]
    simp
  unfold tagParts
  rw [hdata]
  have hpipe : '|' ∉ k.data ++ ':' :: v.data := by
    intro hmem
    rcases List.mem_append.mp hmem with h | h
    · exact hkp h
    · rcases List.mem_cons.mp h with h | h
      · exact absurd h (by decide)
      · exact hvp h
  rw [pySplitChars_sepFree '|' _ hpipe]
  show tagStep [] (k.data ++ ':' :: v.data) = []
  apply tagStep_skip
  rw [pySplitChars_append ':' k.data v.data hk]
  have htwo := pySplitChars_two_le ':' v.data hv
  intro hlen
  rw [List.length_cons] at hlen
  omega

/-- Witness for C2 (amended) on the segment `time:12:00`. -/
theorem claim_C2_witness :
    tagParts ("time" ++ ":" ++ "12:00") = [] :=
  claim_C2_amended "time" "12:00" (by decide) (by decide) (by decide) (by decide)

/-- C8: for every well-formed custom tag `k1:v1|k2:v2|...` with distinct
keys and `:`-free, `|`-free keys and values, decoding and re-encoding
reproduces the original pairs exactly (here: decoding the encoded tag
returns the very list, which is stronger than equality up to order). -/
theorem claim_C8 (l : List (String × String))
    (hfree : ∀ p ∈ l, ':' ∉ p.1.data ∧ '|' ∉ p.1.data ∧ ':' ∉ p.2.data ∧ '|' ∉ p.2.data)
    (hnd : (l.map Prod.fst).Nodup) :
    tagParts (encodeTag l) = l := by
  cases l with
  | nil => rfl
  | cons p tl =>
    unfold tagParts encodeTag
    show ((pySplitChars '|'
      (joinSep '|' ((p :: tl).map fun q => q.1.data ++ ':' :: q.2.data)))).foldl tagStep [] = _
    have hsegfree : ∀ x ∈ (p :: tl).map (fun q => q.1.data ++ ':' :: q.2.data), '|' ∉ x := by
      intro x hx
      rcases List.mem_map.mp hx with ⟨q, hq, rfl⟩
      intro hmem
      rcases List.mem_append.mp hmem with h | h
      · exact (hfree q hq).2.1 h
      · rcases List.mem_cons.mp h with h | h
        · exact absurd h (by decide)
        · exact (hfree q hq).2.2.2 h
    rw [pySplitChars_joinSep '|' _ (by simp) hsegfree]
    have := foldl_tagStep (p :: tl) []
      (fun q hq => ⟨(hfree q hq).1, (hfree q hq).2.2.1⟩) hnd (by simp)
    simpa using this

/-- Witness for C8 on the spec's example-shaped tag. -/
theorem claim_C8_witness :
    tagParts (encodeTag [("purpose", "Donation"), ("email", "a@b.com"), ("user_name", "Jane Doe")]) =
      [("purpose", "Donation"), ("email", "a@b.com"), ("user_name", "Jane Doe")] :=
  claim_C8 [("purpose", "Donation"), ("email", "a@b.com"), ("user_name", "Jane Doe")]
    (by decide) (by decide)

/-- C3, as stated, is false on the code: `process_subscription_created`
reads `resource.get('id')` with NO default (line 85), so a resource
without `id` persists a record keyed by Python `None`, not by the sentinel
`Unknown_ID`. -/
theorem claim_C3_counterexample :
    (process_subscription_created (.jobj .nil)).run =
      (.ok (), [.save .jnull "subscription"
        [("user_name", .jstr "Unknown_Name"),
         ("purpose", .jstr "Unknown_Purpose"),
         ("user_email", .jstr "Unknown_Email"),
         ("create_time", .jnull)]])
    ∧ (JVal.jnull ≠ .jstr "Unknown_ID") := by
  constructor
  · rfl
  · decide

/-- C3 (amended): only `process_order_approved` degrades an absent `id`
to the sentinel `Unknown_ID` (line 153); `process_subscription_created`
(line 85) and `process_subscription_payment` (line 117) use `.get` with no
default, so an absent source ID keys the persisted record by `None`. -/
theorem claim_C3_amended (rf qf pf pu : JFields) (tag : String)
    (ha1 : jfind rf "id" = none) (ha2 : jfind rf "custom_id" = none)
    (hb1 : jfind qf "billing_agreement_id" = none)
    (hb2 : jfind qf "amount" =
      some (.jobj (.cons "total" (.jstr "50.00") (.cons "currency" (.jstr "USD") .nil))))
    (hb3 : jfind qf "transaction_fee" = none) (hb4 : jfind qf "custom" = none)
    (hc1 : jfind pf "id" = none)
    (hc2 : jfind pf "purchase_units" = some (.jarr (.cons (.jobj pu) .nil)))
    (hc3 : jfind pu "amount" = none) (hc4 : jfind pf "payer" = none)
    (hc5 : jfind pu "payments" = none) (hc6 : jfind pu "custom_id" = some (.jstr tag)) :
    (process_subscription_created (.jobj rf)).run =
      (.ok (), [.save .jnull "subscription"
        [("user_name", .jstr "Unknown_Name"),
         ("purpose", .jstr "Unknown_Purpose"),
         ("user_email", .jstr "Unknown_Email"),
         ("create_time", (jfind rf "create_time").getD .jnull)]])
    ∧ (process_subscription_payment (.jobj qf)).run =
      (.ok (), [.save .jnull "payment"
        [("purpose", .jstr "Unknown_Purpose"),
         ("user_name", .jstr "Unknown_Name"),
         ("user_email", .jstr "Unknown_Email"),
         ("amount_value", .jstr "50.00"),
         ("amount_currency", .jstr "USD"),
         ("transaction_fee", .jstr "0.00"),
         ("net_amount", .jstr "50.0"),
         ("create_time", (jfind qf "create_time").getD (.jstr "Unknown_Time"))]])
    ∧ (process_order_approved (.jobj pf)).run =
      (.ok (), [.sheetAppend
        [.jstr "Unknown_ID",
         .jstr (dictGet (tagParts tag) "purpose" "Unknown_Purpose"),
         .jstr "Unknown_Name Unknown_Surname",
         .jstr "Unknown_Email",
         .jstr "0.00",
         .jstr "USD",
         (jfind pf "create_time").getD (.jstr "Unknown_Time")],
        .save (.jstr "Unknown_ID") "payment"
        [("purpose", .jstr (dictGet (tagParts tag) "purpose" "Unknown_Purpose")),
         ("user_name", .jstr (dictGet (tagParts tag) "user_name" "Unknown_Name")),
         ("payer_name", .jstr "Unknown_Name Unknown_Surname"),
         ("user_email", .jstr (dictGet (tagParts tag) "email" "Unknown_Email")),
         ("payer_email", .jstr "Unknown_Email"),
         ("amount_value", .jstr "0.00"),
         ("amount_currency", .jstr "USD"),
         ("transaction_fee", .jstr "0.00"),
         ("net_amount", .jstr "0.00"),
         ("create_time", (jfind pf "create_time").getD (.jstr "Unknown_Time"))]]) := by
  refine ⟨?_, ?_, ?_⟩
  · show (process_subscription_created (.jobj rf)) [] = _
    simp only [process_subscription_created, run_bind, run_pure, pyGetN_obj, pyGetD_obj,
      ha1, ha2, Option.getD_none, Option.getD_some]
    rfl
  · show (process_subscription_payment (.jobj qf)) [] = _
    simp only [process_subscription_payment, run_bind, run_pure, pyGetN_obj, pyGetD_obj,
      pySubscript, hb1, hb2, hb3, hb4, Option.getD_none, Option.getD_some]
    rfl
  · show (process_order_approved (.jobj pf)) [] = _
    simp [process_order_approved, pySubscript, pyTruthy, pyIndex0, asStr, pyStrAdd,
      append_to_google_sheet, save_record, jfind, hc1, hc2, hc3, hc4, hc5, hc6]

/-- Witness for C3 (amended) at concrete resources with absent IDs. -/
theorem claim_C3_witness :
    (process_subscription_created (.jobj .nil)).run =
      (.ok (), [.save .jnull "subscription"
        [("user_name", .jstr "Unknown_Name"),
         ("purpose", .jstr "Unknown_Purpose"),
         ("user_email", .jstr "Unknown_Email"),
         ("create_time", .jnull)]])
    ∧ (process_subscription_payment
        (.jobj (.cons "amount"
          (.jobj (.cons "total" (.jstr "50.00") (.cons "currency" (.jstr "USD") .nil))) .nil))).run =
      (.ok (), [.save .jnull "payment"
        [("purpose", .jstr "Unknown_Purpose"),
         ("user_name", .jstr "Unknown_Name"),
         ("user_email", .jstr "Unknown_Email"),
         ("amount_value", .jstr "50.00"),
         ("amount_currency", .jstr "USD"),
         ("transaction_fee", .jstr "0.00"),
         ("net_amount", .jstr "50.0"),
         ("create_time", .jstr "Unknown_Time")]])
    ∧ (process_order_approved
        (.jobj (.cons "purchase_units"
          (.jarr (.cons (.jobj (.cons "custom_id" (.jstr "") .nil)) .nil)) .nil))).run =
      (.ok (), [.sheetAppend
        [.jstr "Unknown_ID", .jstr "Unknown_Purpose", .jstr "Unknown_Name Unknown_Surname",
         .jstr "Unknown_Email", .jstr "0.00", .jstr "USD", .jstr "Unknown_Time"],
        .save (.jstr "Unknown_ID") "payment"
        [("purpose", .jstr "Unknown_Purpose"),
         ("user_name", .jstr "Unknown_Name"),
         ("payer_name", .jstr "Unknown_Name Unknown_Surname"),
         ("user_email", .jstr "Unknown_Email"),
         ("payer_email", .jstr "Unknown_Email"),
         ("amount_value", .jstr "0.00"),
         ("amount_currency", .jstr "USD"),
         ("transaction_fee", .jstr "0.00"),
         ("net_amount", .jstr "0.00"),
         ("create_time", .jstr "Unknown_Time")]]) :=
  claim_C3_amended .nil
    (.cons "amount" (.jobj (.cons "total" (.jstr "50.00") (.cons "currency" (.jstr "USD") .nil))) .nil)
    (.cons "purchase_units" (.jarr (.cons (.jobj (.cons "custom_id" (.jstr "") .nil)) .nil)) .nil)
    (.cons "custom_id" (.jstr "") .nil) ""
    (by decide) (by decide) (by decide) (by decide) (by decide) (by decide)
    (by decide) (by decide) (by decide) (by decide) (by decide) (by decide)

/-- C4 names a real code bug: the claim (and spec §4.2: the decoder
"never fails") is the evident intent — the other two handlers default the
tag with `.get("custom_id", "")` / `.get("custom", "")` — but line 175
reads `purchase_unit.get("custom_id")` with NO default, so an approved
order whose purchase unit has no `custom_id` leaves `None`, and
`None.split('|')` raises `AttributeError`: the invocation aborts with 500
instead of continuing with an empty map and sentinel defaults.  This
theorem evaluates the code at the failing input. -/
theorem claim_C4_bug :
    lambda_handler noCustomIdOrderEvent =
      (⟨500, .error "An unexpected error occurred."⟩, []) := by
  rfl

/-- C5, as stated, is false on the code: line 121 subtracts binary64
`float`s, so the stored `net_amount` string is the shortest decimal of the
rounded binary difference, not the exact decimal difference.  With gross
`0.30` and fee `0.10` the handler persists `net_amount = "0.19999999999999998"`,
while the exact difference is `0.2`. -/
theorem claim_C5_counterexample :
    (process_subscription_payment grossFeeResource).run =
      (.ok (), [.save .jnull "payment"
        [("purpose", .jstr "Unknown_Purpose"),
         ("user_name", .jstr "Unknown_Name"),
         ("user_email", .jstr "Unknown_Email"),
         ("amount_value", .jstr "0.30"),
         ("amount_currency", .jstr "USD"),
         ("transaction_fee", .jstr "0.10"),
         ("net_amount", .jstr "0.19999999999999998"),
         ("create_time", .jstr "Unknown_Time")]])
    ∧ exactDecSub "0.30" "0.10" = some "0.2"
    ∧ netAmountStr "0.30" "0.10" = some "0.19999999999999998"
    ∧ netAmountStr "0.30" "0.10" ≠ some "0.2" := by
  refine ⟨rfl, rfl, rfl, ?_⟩
  decide

/-- C5 (amended): `net_amount` is `str(float(gross) - float(fee))` — the
shortest round-trip decimal of the IEEE-754 binary64 difference.  It
equals the exact decimal difference only when that difference is exactly
representable: gross `0.10` / fee `0.02` does yield `0.08` (the claim's
example), but gross `0.30` / fee `0.10` yields `0.19999999999999998`.
Re-parsing the stored string does recover the same binary64 value. -/
theorem claim_C5_amended :
    netAmountStr "0.10" "0.02" = some "0.08"
    ∧ exactDecSub "0.10" "0.02" = some "0.08"
    ∧ netAmountStr "0.30" "0.10" = some "0.19999999999999998"
    ∧ pyFloatOfString "0.19999999999999998" =
        some (f64Sub ((pyFloatOfString "0.30").getD ⟨false, 0, 0⟩)
                     ((pyFloatOfString "0.10").getD ⟨false, 0, 0⟩)) := by
  refine ⟨rfl, rfl, rfl, ?_⟩
  rfl

/-- C6: for every event passing validation whose `event_type` is none of
the three recognized discriminators, `lambda_handler` answers 200 with the
"not processed" message and performs no sink write. -/
theorem claim_C6 (hf bf : JFields) (et r : JVal)
    (hct : jfind hf "Content-Type" = some (.jstr "application/json"))
    (hev : jfind bf "event_type" = some et)
    (hres : jfind bf "resource" = some r)
    (h1 : pyEqStr et "BILLING.SUBSCRIPTION.CREATED" = false)
    (h2 : pyEqStr et "PAYMENT.SALE.COMPLETED" = false)
    (h3 : pyEqStr et "CHECKOUT.ORDER.APPROVED" = false) :
    lambda_handler ⟨some (.jobj hf), some (.decoded (.jobj bf))⟩ =
      (⟨200, .message ("Event type " ++ pyStr et ++ " not processed.")⟩, []) :=
  lambda_handler_unknown_route hf bf et r hct hev hres h1 h2 h3

/-- Witness for C6 at the spec's `UNKNOWN.EVENT` example. -/
theorem claim_C6_witness :
    lambda_handler
      ⟨some (.jobj (.cons "Content-Type" (.jstr "application/json") .nil)),
       some (.decoded (.jobj
        (.cons "event_type" (.jstr "UNKNOWN.EVENT")
        (.cons "resource" (.jobj .nil) .nil))))⟩ =
      (⟨200, .message "Event type UNKNOWN.EVENT not processed."⟩, []) :=
  claim_C6
    (.cons "Content-Type" (.jstr "application/json") .nil)
    (.cons "event_type" (.jstr "UNKNOWN.EVENT") (.cons "resource" (.jobj .nil) .nil))
    (.jstr "UNKNOWN.EVENT") (.jobj .nil)
    (by decide) (by decide) (by decide) (by decide) (by decide) (by decide)

/-- C7: for every CHECKOUT.ORDER.APPROVED event whose
`resource.purchase_units` is an empty list or absent, processing fails
(the `ValueError` of line 156 surfaces as status 400) and nothing is
persisted to either sink. -/
theorem claim_C7 (hf bf fs : JFields)
    (hct : jfind hf "Content-Type" = some (.jstr "application/json"))
    (hev : jfind bf "event_type" = some (.jstr "CHECKOUT.ORDER.APPROVED"))
    (hres : jfind bf "resource" = some (.jobj fs))
    (hpu : jfind fs "purchase_units" = none ∨ jfind fs "purchase_units" = some (.jarr .nil)) :
    lambda_handler ⟨some (.jobj hf), some (.decoded (.jobj bf))⟩ =
      (⟨400, .error "Missing purchase_units in resource."⟩, []) := by
  rw [lambda_handler_order_route hf bf (.jobj fs) hct hev hres]
  have hfail : (process_order_approved (.jobj fs)) [] =
      (.error (.valueError "Missing purchase_units in resource."), []) := by
    cases hpu with
    | inl h1 => simp [process_order_approved, pyTruthy, h1]
    | inr h1 => simp [process_order_approved, pyTruthy, h1]
  rw [hfail]

/-- Witness for C7 at the spec's empty-`purchase_units` example. -/
theorem claim_C7_witness :
    lambda_handler
      ⟨some (.jobj (.cons "Content-Type" (.jstr "application/json") .nil)),
       some (.decoded (.jobj
        (.cons "event_type" (.jstr "CHECKOUT.ORDER.APPROVED")
        (.cons "resource" (.jobj (.cons "purchase_units" (.jarr .nil) .nil)) .nil))))⟩ =
      (⟨400, .error "Missing purchase_units in resource."⟩, []) :=
  claim_C7
    (.cons "Content-Type" (.jstr "application/json") .nil)
    (.cons "event_type" (.jstr "CHECKOUT.ORDER.APPROVED")
      (.cons "resource" (.jobj (.cons "purchase_units" (.jarr .nil) .nil)) .nil))
    (.cons "purchase_units" (.jarr .nil) .nil)
    (by decide) (by decide) (by decide) (Or.inr (by decide))

/-- C9: a BILLING.SUBSCRIPTION.CREATED event whose resource carries
`custom_id = "purpose:Donation|email:a@b.com|user_name:Jane Doe"`
persists a subscription record with `purpose = "Donation"`,
`user_email = "a@b.com"` and `user_name = "Jane Doe"`. -/
theorem claim_C9 :
    lambda_handler subCreatedEvent =
      (⟨200, .message "Event type BILLING.SUBSCRIPTION.CREATED processed successfully."⟩,
       [.save (.jstr "I-SUB1") "subscription"
         [("user_name", .jstr "Jane Doe"),
          ("purpose", .jstr "Donation"),
          ("user_email", .jstr "a@b.com"),
          ("create_time", .jstr "2024-12-01T00:00:00Z")]]) := by
  rfl

/-- C10: for every event whose `body` is a string that `json.loads`
rejects, `lambda_handler` answers 400 with the decode error as its error
body (`json.JSONDecodeError` is a `ValueError`), regardless of the
headers; no handler runs and no sink is invoked. -/
theorem claim_C10 (headers? : Option JVal) (msg : String) :
    lambda_handler ⟨headers?, some (.encoded (.error msg))⟩ =
      (⟨400, .error msg⟩, []) := by
  rfl

end PaypalProcessor
